import Mathlib

/-!
Shallow embedding of the VnExpress news crawler (`src/crawler.py`, `main.py`)
and verification of its specification.

Modelling conventions:
* Python dicts for article records become the `Article` structure; `crawled_at`
  is `Option Int` because the orchestrator persists records without that key.
* The JSON store file is modelled by its decoded content, a `List Article`
  (JSON serialization of these string/integer fields is faithful).
* `datetime.strptime(s, "%d/%m/%Y %H:%M")` is modelled by a character-level
  parser with the same digit-count and range behaviour, and
  `datetime.timestamp()` on a naive datetime (local civil time) is modelled
  with an explicit fixed local-zone offset `tz` in seconds east of UTC.
* Network responses are modelled by an environment `Nat → FetchOutcome`
  giving the outcome of each successive HTTP attempt.
* The Python set `crawled_urls` is modelled as a `List String` queried with
  membership.
-/

namespace Crawl

/-- An article record as built by `NewsCrawler.parse_article` /
persisted in `data/vnexpress_articles.json`.  `crawled_at` is optional:
`main.main` persists freshly-parsed records without that key. -/
structure Article where
  url : String
  title : String
  content : String
  publish_date : Int
  crawled_at : Option Int
deriving Repr, DecidableEq

/-! ## Date parsing: `datetime.strptime(s, "%d/%m/%Y %H:%M")` -/

/-- Numeric value of a decimal digit character. -/
def digitVal (c : Char) : Nat := c.toNat - '0'.toNat

/-- Read one or two leading decimal digits greedily (as the CPython
`_strptime` regex fragments for `%d`, `%m`, `%H`, `%M` do against a
non-digit delimiter), returning the value and the remaining characters. -/
def readUpTo2Digits : List Char → Option (Nat × List Char)
  | [] => none
  | c1 :: rest =>
    if c1.isDigit then
      match rest with
      | c2 :: rest2 =>
        if c2.isDigit then some (digitVal c1 * 10 + digitVal c2, rest2)
        else some (digitVal c1, c2 :: rest2)
      | [] => some (digitVal c1, [])
    else none

/-- Read exactly four leading decimal digits (the `%Y` directive). -/
def read4Digits : List Char → Option (Nat × List Char)
  | c1 :: c2 :: c3 :: c4 :: rest =>
    if c1.isDigit && c2.isDigit && c3.isDigit && c4.isDigit then
      some (((digitVal c1 * 10 + digitVal c2) * 10 + digitVal c3) * 10 + digitVal c4, rest)
    else none
  | _ => none

/-- Consume one expected literal character. -/
def expectChar (c : Char) : List Char → Option (List Char)
  | [] => none
  | c1 :: rest => if c1 = c then some rest else none

/-- Gregorian leap year, as `datetime` uses (proleptic Gregorian). -/
def isLeap (y : Nat) : Bool := (y % 4 == 0 && y % 100 != 0) || y % 400 == 0

/-- Number of days in month `m` of year `y` (1-based month). -/
def daysInMonth (y m : Nat) : Nat :=
  if m = 2 then (if isLeap y then 29 else 28)
  else if m = 4 ∨ m = 6 ∨ m = 9 ∨ m = 11 then 30
  else 31

/-- Days in the months of year `y` strictly before month `m`. -/
def daysBeforeMonth (y m : Nat) : Nat :=
  (List.range 13).foldl (fun acc k => if 1 ≤ k ∧ k < m then acc + daysInMonth y k else acc) 0

/-- Proleptic-Gregorian ordinal day number: day `d` of month `m` of year `y`,
with 0001-01-01 as day 1 (like Python `datetime.toordinal`). -/
def toOrdinal (y m d : Nat) : Nat :=
  365 * (y - 1) + (y - 1) / 4 - (y - 1) / 100 + (y - 1) / 400 + daysBeforeMonth y m + d

/-- Python `str.split(sep)` for a one-character separator: splits at every
occurrence, keeping empty fields. -/
def pySplit (sep : Char) : List Char → List (List Char)
  | [] => [[]]
  | x :: rest =>
    let r := pySplit sep rest
    if x = sep then [] :: r
    else
      match r with
      | [] => [[x]]
      | h :: t => (x :: h) :: t

/-- Python `str.strip()`: remove leading and trailing whitespace. -/
def pyStrip (cs : List Char) : List Char :=
  ((cs.dropWhile Char.isWhitespace).reverse.dropWhile Char.isWhitespace).reverse

/-- Parsed result of `strptime` with format `"%d/%m/%Y %H:%M"`: the
(year, month, day, hour, minute) tuple, or `none` on any mismatch,
out-of-range component, or invalid calendar date — exactly the cases in
which the Python call raises `ValueError`. -/
def strptimeDMYHM (cs : List Char) : Option (Nat × Nat × Nat × Nat × Nat) := do
  let (d, cs) ← readUpTo2Digits cs
  let cs ← expectChar '/' cs
  let (m, cs) ← readUpTo2Digits cs
  let cs ← expectChar '/' cs
  let (y, cs) ← read4Digits cs
  let cs ← expectChar ' ' cs
  let (h, cs) ← readUpTo2Digits cs
  let cs ← expectChar ':' cs
  let (mi, cs) ← readUpTo2Digits cs
  if cs = [] ∧ 1 ≤ y ∧ 1 ≤ m ∧ m ≤ 12 ∧ 1 ≤ d ∧ d ≤ daysInMonth y m ∧ h ≤ 23 ∧ mi ≤ 59 then
    some (y, m, d, h, mi)
  else none

/-- `datetime(y,m,d,h,mi).timestamp()` for a naive datetime: seconds since
the Unix epoch, interpreting the civil time in a local zone `tz` seconds
east of UTC (the system zone is modelled as a fixed offset). -/
def epochOfLocal (tz : Int) (y m d h mi : Nat) : Int :=
  ((toOrdinal y m d : Int) - (toOrdinal 1970 1 1 : Int)) * 86400 + h * 3600 + mi * 60 - tz

/-- The string-processing core of `NewsCrawler.convert_date_to_timestamp`
(lines 230-245): split on commas, require at least 3 parts, take part
index 1 stripped as the date, part index 2 up to the first `(` stripped as
the time, and `strptime` the combination with `"%d/%m/%Y %H:%M"`. -/
def convert_core (date_str : String) : Option (Nat × Nat × Nat × Nat × Nat) :=
  let date_parts := pySplit ',' date_str.toList
  if date_parts.length ≥ 3 then
    let date_part := pyStrip (date_parts.getD 1 [])
    let time_part := pyStrip ((date_parts.getD 2 []).takeWhile (· ≠ '('))
    strptimeDMYHM (date_part ++ [' '] ++ time_part)
  else none

/-- `NewsCrawler.convert_date_to_timestamp`: the parsed local civil time
converted to an integer Unix timestamp; `none` on any failure (the Python
code catches every exception and returns `None`). -/
def convert_date_to_timestamp (tz : Int) (date_str : String) : Option Int :=
  (convert_core date_str).map (fun t =>
    match t with
    | (y, m, d, h, mi) => epochOfLocal tz y m d h mi)

/-! ## Page fetcher: `BaseCrawler.get_page` -/

/-- `BaseCrawler.max_retries` (set in `BaseCrawler.__init__`). -/
def max_retries : Nat := 3

/-- `BaseCrawler.retry_delay` in seconds (set in `BaseCrawler.__init__`). -/
def retry_delay : Nat := 5

/-- Outcome of one HTTP attempt in `get_page`: a successful response body,
an HTTP error status raised by `raise_for_status`, or any other exception
(network failure, timeout, ...). -/
inductive FetchOutcome where
  | success (html : String)
  | httpError (status : Nat)
  | netError
deriving Repr, DecidableEq

/-- `BaseCrawler.get_page url retry_count`, with the network modelled by
`env : Nat → FetchOutcome` giving the outcome of the attempt made at each
`retry_count` value.  Returns the result (`none` on failure) together with
the list of backoff waits slept between attempts, in seconds (the random
2-5 s pre-request jitter is not included). -/
def get_page (env : Nat → FetchOutcome) (retry_count : Nat) : Option String × List Nat :=
  match env retry_count with
  | .success html => (some html, [])
  | .httpError status =>
    if status = 429 ∧ retry_count < max_retries then
      let wait_time := retry_delay * (retry_count + 1)
      let rest := get_page env (retry_count + 1)
      (rest.1, wait_time :: rest.2)
    else (none, [])
  | .netError => (none, [])
termination_by max_retries - retry_count
decreasing_by omega

/-! ## Dedup / store: `NewsCrawler.load_articles`, `save_articles_to_json`,
`is_crawled` -/

/-- The mutable crawl state of a `NewsCrawler` object: the `crawled_urls`
set (modelled as a list queried by membership) and the in-memory
`articles` list. -/
structure CrawlerState where
  crawled_urls : List String
  articles : List Article
deriving Repr, DecidableEq

/-- `NewsCrawler.is_crawled`: membership in `crawled_urls`. -/
def is_crawled (st : CrawlerState) (url : String) : Bool :=
  st.crawled_urls.contains url

/-- `NewsCrawler.load_articles` together with the `crawled_urls` update it
performs, run at `__init__`: with the store file decoded to `file` (`none`
if the file is absent or unreadable), it adds the `url` of every record in
the file to `crawled_urls` and keeps only the first 5 records
(`articles[:5]`) as the in-memory list. -/
def newsCrawler_init (file : Option (List Article)) : CrawlerState :=
  match file with
  | none => { crawled_urls := [], articles := [] }
  | some arts => { crawled_urls := arts.map (·.url), articles := arts.take 5 }

/-- `NewsCrawler.save_articles_to_json` on the success path: extends
`self.articles` with the new articles and writes the whole extended list
to the store file.  Returns the new state and the written file content. -/
def save_articles_to_json (st : CrawlerState) (new_articles : List Article) :
    CrawlerState × List Article :=
  let arts := st.articles ++ new_articles
  ({ st with articles := arts }, arts)

/-- Byte-level content of the store file, for the write-failure model:
either absent, the well-formed JSON serialization of a record list, or a
partial/truncated write of the first `k` bytes of that serialization
(with `partialWrite 0 _` the empty file that `open(path, "w")` leaves
right after truncation). -/
inductive FileContent where
  | absent
  | jsonOf (articles : List Article)
  | partialWrite (k : Nat) (articles : List Article)
deriving Repr, DecidableEq

/-- Point at which a run of `save_articles_to_json` fails, if any:
`openFail` is an exception raised by `open` itself (before the file is
touched), `dumpFail k` an exception raised during `json.dump` after `k`
bytes were flushed. -/
inductive SaveOutcome where
  | ok
  | openFail
  | dumpFail (k : Nat)
deriving Repr, DecidableEq

/-- File-level model of `save_articles_to_json` (lines 126-128): the store
file is opened with mode `"w"`, which truncates it in place, and the full
article list is then serialized into it; every exception is caught and
logged.  `prior` is the file content before the call; the result is the
file content after it. -/
def save_write (prior : FileContent) (arts : List Article) : SaveOutcome → FileContent
  | .ok => .jsonOf arts
  | .openFail => prior
  | .dumpFail k => .partialWrite k arts

/-! ## Article parser: `NewsCrawler.parse_article` -/

/-- A sub-block of the `article.fck_detail` content container.
`removable` marks blocks matching `.box_embed_video, .box_ins_readmore`
(decomposed before text extraction); `paragraphs` are the raw texts of the
`p` descendants of the block. -/
structure ContentBlock where
  removable : Bool
  paragraphs : List String
deriving Repr, DecidableEq

/-- The result of the four structural selector queries of `parse_article`
on an article page: `h1.title-detail`, `article.fck_detail` (as its list
of sub-blocks), `.header-content .date`, `p.description`; each `none`
when `select_one` finds nothing. -/
structure ArticleMarkup where
  title : Option String
  contentBlocks : Option (List ContentBlock)
  publishDate : Option String
  description : Option String
deriving Repr, DecidableEq

/-- Paragraph texts remaining in the content container after the
removable sub-blocks are decomposed (`content.select('p')`). -/
def remainingParagraphs (blocks : List ContentBlock) : List String :=
  (blocks.filter (fun b => !b.removable)).flatMap (·.paragraphs)

/-- The `content_text` built by `parse_article` lines 178-187: stripped,
non-empty paragraph texts joined with a single newline, with the stripped
description text and a blank line prepended when a description node
exists. -/
def content_text_of (blocks : List ContentBlock) (description : Option String) : String :=
  let t := String.intercalate "\n"
    (((remainingParagraphs blocks).map (fun p => String.mk (pyStrip p.toList))).filter (· ≠ ""))
  match description with
  | some d => String.mk (pyStrip d.toList) ++ "\n\n" ++ t
  | none => t

/-- Modelled from the spec's words for the content field ("paragraph
texts ... joined with blank-line separation"): like `content_text_of` but
with a blank line between consecutive paragraphs. -/
def specClaimContent (blocks : List ContentBlock) (description : Option String) : String :=
  let t := String.intercalate "\n\n"
    (((remainingParagraphs blocks).map (fun p => String.mk (pyStrip p.toList))).filter (· ≠ ""))
  match description with
  | some d => String.mk (pyStrip d.toList) ++ "\n\n" ++ t
  | none => t

/-- The `content_text` variable of `parse_article`: empty when the
content container is missing, `content_text_of` otherwise. -/
def parse_content_text (m : ArticleMarkup) : String :=
  match m.contentBlocks with
  | some blocks => content_text_of blocks m.description
  | none => ""

/-- `NewsCrawler.parse_article html url` with the markup already resolved
to its selector results `m`; `now` is `int(datetime.now().timestamp())`
at parse completion and `tz` the local-zone offset.  Returns `none` when
the title or date node is missing, the content text is empty, or the date
string fails to convert (or converts to the falsy timestamp 0) — the
code's "missing required data" and "failed to parse publish date"
paths. -/
def parse_article (m : ArticleMarkup) (url : String) (now : Int) (tz : Int) :
    Option Article :=
  let content_text := parse_content_text m
  if m.title.isNone ∨ content_text = "" ∨ m.publishDate.isNone then none
  else
    match convert_date_to_timestamp tz (String.mk (pyStrip (m.publishDate.getD "").toList)) with
    | none => none
    | some ts =>
      if ts = 0 then none  -- 'if not publish_timestamp' also rejects a 0 timestamp
      else
      some { title := String.mk (pyStrip (m.title.getD "").toList)
             content := content_text
             publish_date := ts
             crawled_at := some now
             url := url }

/-! ## Listing extractor: `NewsCrawler.get_article_list` -/

/-- Substring containment, the semantics of Python's `"sub" in s`. -/
def strContains (hay needle : String) : Bool :=
  (List.range (hay.toList.length + 1)).any
    (fun i => needle.toList.isPrefixOf (hay.toList.drop i))

/-- One `article.item-news` node of a listing page, reduced to the result
of its `h3.title-news > a` query: `none` when the link node is absent, and
otherwise the value of its `href` attribute (`none` when the attribute is
absent). -/
structure ItemNews where
  titleLinkHref : Option (Option String)
deriving Repr, DecidableEq

/-- The link-selection loop of `NewsCrawler.get_article_list` (lines
325-333), with the listing page already resolved to its
`article.item-news` nodes: keep each present `href` whose URL contains
`"vnexpress.net"` as a substring (`'vnexpress.net' in url`). -/
def get_article_list (items : List ItemNews) : List String :=
  items.flatMap (fun item =>
    match item.titleLinkHref with
    | some (some url) => if strContains url "vnexpress.net" then [url] else []
    | _ => [])

/-- Characters after the first occurrence of `"://"`. -/
def afterSchemeSep : List Char → List Char
  | ':' :: '/' :: '/' :: rest => rest
  | _ :: rest => afterSchemeSep rest
  | [] => []

/-- Modelled from the spec's words ("links whose host matches the target
site"): the host component of a URL — the text after `"://"` (when
present) and before the next `/`. -/
def specUrlHost (url : String) : String :=
  let rest := if strContains url "://" then afterSchemeSep url.toList else url.toList
  String.mk (rest.takeWhile (· ≠ '/'))

/-! ## Recency filter and orchestrator: `NewsCrawler.is_within_days`,
`NewsCrawler.crawl_article`, the per-article loop body of `main.main` -/

/-- `NewsCrawler.is_within_days publish_timestamp days` at current time
`now` (seconds): `days_ago <= publish_timestamp <= now`, with the two
`datetime.now()` calls modelled as the same instant, so
`days_ago = now - days * 86400`. -/
def is_within_days (now publish_timestamp : Int) (days : Int) : Bool :=
  now - days * 86400 ≤ publish_timestamp ∧ publish_timestamp ≤ now

/-- `NewsCrawler.crawl_article url`: returns `none` without fetching when
the URL is already crawled; otherwise fetches (`page`, already resolved to
the parsed markup, `none` when `get_page` failed) and parses, and on parse
success adds the URL to `crawled_urls` before returning the article. -/
def crawl_article (st : CrawlerState) (url : String) (page : Option ArticleMarkup)
    (now : Int) (tz : Int) : CrawlerState × Option Article :=
  if is_crawled st url then (st, none)
  else
    match page with
    | none => (st, none)
    | some m =>
      match parse_article m url now tz with
      | none => (st, none)
      | some a => ({ st with crawled_urls := url :: st.crawled_urls }, some a)

/-- The accumulator state of `main.main`'s per-article loop: the crawler
object plus the `new_articles` and `failed_urls` lists. -/
structure RunState where
  crawler : CrawlerState
  new_articles : List Article
  failed_urls : List String
deriving Repr, DecidableEq

/-- The `filtered_article` dict built in `main.main` (lines 68-73) from a
parsed article: only `url`, `title`, `content`, `publish_date` are kept —
no `crawled_at` key. -/
def filtered_of (a : Article) : Article :=
  { url := a.url, title := a.title, content := a.content,
    publish_date := a.publish_date, crawled_at := none }

/-- The body of `main.main`'s per-article loop (lines 55-89) for one URL:
skip if already crawled; otherwise `crawl_article`; if it yields an
article with truthy `content` and `publish_date`, keep it when it is
within 7 days (appending the filtered record and re-adding the URL to
`crawled_urls`) and silently discard it when it is stale; if no such
article was produced, record the URL as failed. -/
def main_step (rs : RunState) (url : String) (page : Option ArticleMarkup)
    (now : Int) (tz : Int) : RunState :=
  if is_crawled rs.crawler url then rs
  else
    let (st', article?) := crawl_article rs.crawler url page now tz
    match article? with
    | some a =>
      if a.content ≠ "" ∧ a.publish_date ≠ 0 then
        if is_within_days now a.publish_date 7 then
          { crawler := { st' with crawled_urls := url :: st'.crawled_urls },
            new_articles := rs.new_articles ++ [filtered_of a],
            failed_urls := rs.failed_urls }
        else
          { rs with crawler := st' }
      else
        { crawler := st', new_articles := rs.new_articles,
          failed_urls := rs.failed_urls ++ [url] }
    | none =>
      { crawler := st', new_articles := rs.new_articles,
        failed_urls := rs.failed_urls ++ [url] }

/-! ## Concrete fixtures used by counterexamples and witnesses -/

/-- A concrete article record with index `i` in its URL. -/
def mkArt (i : Nat) : Article :=
  { url := "https://vnexpress.net/a-" ++ toString i, title := "t", content := "c",
    publish_date := 1, crawled_at := none }

/-- Six distinct concrete article records. -/
def sixArticles : List Article :=
  [mkArt 0, mkArt 1, mkArt 2, mkArt 3, mkArt 4, mkArt 5]

/-- A concrete article page whose content container has one plain block
with two paragraphs and no description. -/
def twoParasMarkup : ArticleMarkup :=
  { title := some "T", contentBlocks := some [{ removable := false, paragraphs := ["Alpha", "Beta"] }],
    publishDate := some "Thu, 21/2/2025, 09:56 (GMT+7)", description := none }

/-- A concrete article page with a removable video block, paragraphs
needing stripping/dropping, and a description node. -/
def descrMarkup : ArticleMarkup :=
  { title := some "T",
    contentBlocks := some
      [{ removable := true, paragraphs := ["Zap"] },
       { removable := false, paragraphs := [" Alpha ", "", "Beta"] }],
    publishDate := some "Thu, 21/2/2025, 09:56 (GMT+7)", description := some " D " }

/-- The timestamp of 2025-02-21 09:56 at zone offset 0: the
`publish_date` both fixture pages parse to at `tz = 0`. -/
def ts0 : Int := epochOfLocal 0 2025 2 21 9 56

/-- The record `parse_article descrMarkup "u" 5 0` yields. -/
def descrParsed : Article :=
  { url := "u", title := "T", content := "D\n\nAlpha\nBeta",
    publish_date := ts0, crawled_at := some 5 }

/-- A fresh run state: no store file, nothing accumulated. -/
def runState0 : RunState :=
  { crawler := newsCrawler_init none, new_articles := [], failed_urls := [] }

/-- The record `parse_article twoParasMarkup "https://vnexpress.net/a"`
yields ten days after `ts0` (so the article is stale for the 7-day
window). -/
def staleParsed : Article :=
  { url := "https://vnexpress.net/a", title := "T", content := "Alpha\nBeta",
    publish_date := ts0, crawled_at := some (ts0 + 864000) }

/-- The record `main.main` accumulates for `twoParasMarkup` fetched at
`https://vnexpress.net/a` when `now = ts0`, `tz = 0`: the parsed article
with `crawled_at` stripped. -/
def freshStored : Article :=
  { url := "https://vnexpress.net/a", title := "T", content := "Alpha\nBeta",
    publish_date := ts0, crawled_at := none }

end Crawl

namespace Crawl

/-! ## Theorems -/

/-- C2: after `load_articles` populates the state from a persisted store
file (and before any fetch), `is_crawled` returns `true` for the URL of
every record in the file. -/
theorem C2_loaded_urls_are_seen (arts : List Article) (a : Article) (h : a ∈ arts) :
    is_crawled (newsCrawler_init (some arts)) a.url = true := by
  simp only [is_crawled, newsCrawler_init]
  exact List.elem_eq_true_of_mem (List.mem_map_of_mem _ h)

/-- Witness for C2 at a concrete store file. -/
theorem C2_witness :
    mkArt 2 ∈ sixArticles ∧
    is_crawled (newsCrawler_init (some sixArticles)) (mkArt 2).url = true :=
  ⟨by decide, C2_loaded_urls_are_seen sixArticles (mkArt 2) (by decide)⟩

/-- C9: loading keeps only the first 5 records of the store file as the
in-memory list (so at most 5), while `crawled_urls` receives the URL of
every record; a subsequent save writes the truncated list plus the new
records, dropping persisted records beyond the first 5. -/
theorem C9_load_truncates_to_five (arts new_articles : List Article) :
    (newsCrawler_init (some arts)).articles = arts.take 5 ∧
    (newsCrawler_init (some arts)).articles.length ≤ 5 ∧
    (newsCrawler_init (some arts)).crawled_urls = arts.map (·.url) ∧
    (save_articles_to_json (newsCrawler_init (some arts)) new_articles).2 =
      arts.take 5 ++ new_articles := by
  refine ⟨rfl, ?_, rfl, rfl⟩
  simp only [newsCrawler_init, List.length_take]
  omega

/-- C3 (part): `convert_date_to_timestamp` on the documented example and
on malformed input, and the requirement of at least 3 comma-separated
segments. -/
theorem C3_convert_date_to_timestamp (tz : Int) :
    convert_date_to_timestamp tz "Thứ năm, 21/2/2025, 09:56 (GMT+7)" =
      some (epochOfLocal tz 2025 2 21 9 56) ∧
    convert_date_to_timestamp tz "invalid date" = none ∧
    ∀ s : String, (pySplit ',' s.toList).length < 3 → convert_date_to_timestamp tz s = none := by
  refine ⟨?_, ?_, ?_⟩
  · have h : convert_core "Thứ năm, 21/2/2025, 09:56 (GMT+7)" = some (2025, 2, 21, 9, 56) := by
      decide
    simp [convert_date_to_timestamp, h]
  · have h : convert_core "invalid date" = none := by decide
    simp [convert_date_to_timestamp, h]
  · intro s hs
    have h : convert_core s = none := by
      unfold convert_core
      rw [if_neg]
      omega
    simp [convert_date_to_timestamp, h]

/-- Witness for C3 at a concrete zone offset (GMT+7, 25200 s) and a
concrete malformed input. -/
theorem C3_witness :
    convert_date_to_timestamp 25200 "Thứ năm, 21/2/2025, 09:56 (GMT+7)" = some 1740106560 ∧
    convert_date_to_timestamp 25200 "invalid date" = none ∧
    convert_date_to_timestamp 25200 "no commas here" = none := by
  refine ⟨?_, (C3_convert_date_to_timestamp 25200).2.1, ?_⟩
  · rw [(C3_convert_date_to_timestamp 25200).1]
    decide
  · exact (C3_convert_date_to_timestamp 25200).2.2 "no commas here" (by decide)

/-- C7: `get_page` fails immediately (no retry, no wait) on any non-429
HTTP error and on any network failure; on persistent HTTP 429 it retries
`max_retries` times with linearly increasing waits `1*5, 2*5, 3*5`
seconds and then returns `none`; and after `k` consecutive 429s a
successful attempt returns the page with the waits `5, ..., k*5` slept so
far (shown for `k = 2`). -/
theorem C7_get_page_retry_policy (env : Nat → FetchOutcome) (status : Nat) (html : String) :
    (env 0 = .httpError status → status ≠ 429 → get_page env 0 = (none, [])) ∧
    (env 0 = .netError → get_page env 0 = (none, [])) ∧
    ((∀ k, env k = .httpError 429) → get_page env 0 = (none, [5, 10, 15])) ∧
    (env 0 = .httpError 429 → env 1 = .httpError 429 → env 2 = .success html →
      get_page env 0 = (some html, [5, 10])) := by
  refine ⟨?_, ?_, ?_, ?_⟩
  · intro h0 hne
    rw [get_page, h0]
    simp [hne]
  · intro h0
    rw [get_page, h0]
  · intro hall
    rw [get_page, hall 0]
    rw [show (0 : Nat) + 1 = 1 from rfl, get_page, hall 1]
    rw [show (1 : Nat) + 1 = 2 from rfl, get_page, hall 2]
    rw [show (2 : Nat) + 1 = 3 from rfl, get_page, hall 3]
    simp [max_retries, retry_delay]
  · intro h0 h1 h2
    rw [get_page, h0]
    rw [show (0 : Nat) + 1 = 1 from rfl, get_page, h1]
    rw [show (1 : Nat) + 1 = 2 from rfl, get_page, h2]
    simp [max_retries, retry_delay]

/-- Witness for C7: a concrete environment answering 429, 429, then a
success. -/
theorem C7_witness :
    get_page (fun k => if k < 2 then .httpError 429 else .success "page") 0 =
      (some "page", [5, 10]) :=
  (C7_get_page_retry_policy (fun k => if k < 2 then .httpError 429 else .success "page")
    404 "page").2.2.2 (by decide) (by decide) (by decide)

/-- C1 counterexample: saving six records from a fresh crawler and
reloading does not yield an equal record set — the sixth record is in the
saved file but missing after the reload. -/
theorem C1_counterexample :
    mkArt 5 ∈ (save_articles_to_json (newsCrawler_init none) sixArticles).2 ∧
    mkArt 5 ∉ (newsCrawler_init (some (save_articles_to_json (newsCrawler_init none) sixArticles).2)).articles := by
  decide

/-- C1 (amended): reloading a saved record set yields exactly its first 5
records (each with unchanged url/title/content/publish_date values); the
round trip is the identity precisely when the saved set has at most 5
records. -/
theorem C1_roundtrip_first_five (st : CrawlerState) (recs : List Article)
    (hempty : st.articles = []) :
    (newsCrawler_init (some (save_articles_to_json st recs).2)).articles = recs.take 5 ∧
    (recs.length ≤ 5 →
      (newsCrawler_init (some (save_articles_to_json st recs).2)).articles = recs) := by
  constructor
  · simp [save_articles_to_json, newsCrawler_init, hempty]
  · intro hlen
    simp [save_articles_to_json, newsCrawler_init, hempty, List.take_of_length_le hlen]

/-- Witness for C1: a two-record set round-trips unchanged from a fresh
crawler. -/
theorem C1_witness :
    (newsCrawler_init (some (save_articles_to_json (newsCrawler_init none) [mkArt 0, mkArt 1]).2)).articles =
      [mkArt 0, mkArt 1] :=
  (C1_roundtrip_first_five (newsCrawler_init none) [mkArt 0, mkArt 1] rfl).2 (by decide)

/-- C4 counterexample: a listing entry whose link points at a different
host is kept by `get_article_list`, because the code tests only that the
whole URL contains the substring `"vnexpress.net"` — the returned URL's
host is `attacker.example`, not `vnexpress.net`. -/
theorem C4_counterexample :
    get_article_list [{ titleLinkHref := some (some "https://attacker.example/vnexpress.net/a") }] =
      ["https://attacker.example/vnexpress.net/a"] ∧
    specUrlHost "https://attacker.example/vnexpress.net/a" = "attacker.example" ∧
    strContains (specUrlHost "https://attacker.example/vnexpress.net/a") "vnexpress.net" = false := by
  decide

/-- C4 (amended): every URL returned by `get_article_list` contains
`"vnexpress.net"` as a substring somewhere in the URL (not necessarily in
its host); links without that substring are excluded. -/
theorem C4_substring_filter (items : List ItemNews) (url : String)
    (h : url ∈ get_article_list items) :
    strContains url "vnexpress.net" = true := by
  unfold get_article_list at h
  rw [List.mem_flatMap] at h
  obtain ⟨item, -, hm⟩ := h
  rcases item with ⟨href⟩
  rcases href with _ | ⟨_ | u⟩ <;> simp at hm
  rcases hm with ⟨hc, hu⟩
  exact hu ▸ hc

/-- Witness for C4 at a concrete listing. -/
theorem C4_witness :
    "https://vnexpress.net/a" ∈
      get_article_list [{ titleLinkHref := some (some "https://vnexpress.net/a") }] ∧
    strContains "https://vnexpress.net/a" "vnexpress.net" = true :=
  ⟨by decide,
   C4_substring_filter [{ titleLinkHref := some (some "https://vnexpress.net/a") }]
     "https://vnexpress.net/a" (by decide)⟩

/-- Shape of a successful `parse_article` result: the record's fields are
exactly the ones lines 204-210 build, its content is the non-empty
`content_text`, and its timestamp is the successfully converted non-zero
publish date. -/
theorem parse_article_some_shape (m : ArticleMarkup) (url : String) (now tz : Int)
    (a : Article) (hp : parse_article m url now tz = some a) :
    a.url = url ∧
    a.title = String.mk (pyStrip (m.title.getD "").toList) ∧
    a.content = parse_content_text m ∧
    a.content ≠ "" ∧
    a.publish_date ≠ 0 ∧
    convert_date_to_timestamp tz (String.mk (pyStrip (m.publishDate.getD "").toList)) =
      some a.publish_date ∧
    a.crawled_at = some now := by
  unfold parse_article at hp
  by_cases h1 : m.title.isNone ∨ parse_content_text m = "" ∨ m.publishDate.isNone
  · rw [if_pos h1] at hp
    exact absurd hp (by simp)
  · rw [if_neg h1] at hp
    cases hc : convert_date_to_timestamp tz (String.mk (pyStrip (m.publishDate.getD "").toList)) with
    | none =>
      rw [hc] at hp
      exact absurd hp (by simp)
    | some ts =>
      rw [hc] at hp
      dsimp only at hp
      by_cases h0 : ts = 0
      · rw [if_pos h0] at hp
        exact absurd hp (by simp)
      · rw [if_neg h0] at hp
        obtain rfl := (Option.some_inj.mp hp).symm
        simp only [not_or] at h1
        dsimp only
        exact ⟨rfl, rfl, rfl, h1.2.1, h0, rfl, rfl⟩

/-- C5 counterexample: two paragraphs come out joined with a single
newline, not the blank-line separation the claim states — the parsed
content is `"Alpha\nBeta"`, while the claim's formula gives
`"Alpha\n\nBeta"`. -/
theorem C5_counterexample :
    (parse_article twoParasMarkup "u" 100 0).map (·.content) = some "Alpha\nBeta" ∧
    specClaimContent [{ removable := false, paragraphs := ["Alpha", "Beta"] }] none =
      "Alpha\n\nBeta" ∧
    ("Alpha\nBeta" : String) ≠ "Alpha\n\nBeta" := by
  decide

/-- C5 (amended): for every successfully parsed article, the content
field equals the non-empty trimmed paragraph texts of the content
container joined with a single newline (empty paragraphs dropped,
embedded-video and read-more sub-blocks removed first), preceded — when a
description node exists — by the description's trimmed text followed by a
blank line. -/
theorem C5_content_newline_join (m : ArticleMarkup) (url : String) (now tz : Int)
    (blocks : List ContentBlock) (a : Article)
    (hb : m.contentBlocks = some blocks)
    (hp : parse_article m url now tz = some a) :
    a.content = content_text_of blocks m.description := by
  rw [(parse_article_some_shape m url now tz a hp).2.2.1]
  unfold parse_content_text
  rw [hb]

/-- Witness for C5 at a concrete page with a removable block, blank and
padded paragraphs, and a description. -/
theorem C5_witness :
    descrParsed.content =
      content_text_of
        [{ removable := true, paragraphs := ["Zap"] },
         { removable := false, paragraphs := [" Alpha ", "", "Beta"] }]
        descrMarkup.description :=
  C5_content_newline_join descrMarkup "u" 5 0 _ descrParsed rfl (by decide)

/-- C6 counterexample: a failure during serialization (after `open(path,
"w")` has truncated the store file) leaves a partial file, not the prior
content — the save is not atomic and a write failure does not leave the
prior file untouched. -/
theorem C6_counterexample :
    save_write (.jsonOf [mkArt 0]) [mkArt 0, mkArt 1] (.dumpFail 0) =
      .partialWrite 0 [mkArt 0, mkArt 1] ∧
    FileContent.partialWrite 0 [mkArt 0, mkArt 1] ≠ .jsonOf [mkArt 0] := by
  decide

/-- C6 (amended): `save_articles_to_json` overwrites the store file in
place (truncate-then-write, not atomic): a successful run leaves the full
serialized record set; a failure of `open` itself leaves the prior
content untouched; a failure during `json.dump` leaves a truncated or
partial file; in every case the error is logged, never raised. -/
theorem C6_save_not_atomic (prior : FileContent) (arts : List Article) (k : Nat) :
    save_write prior arts .ok = .jsonOf arts ∧
    save_write prior arts .openFail = prior ∧
    save_write prior arts (.dumpFail k) = .partialWrite k arts :=
  ⟨rfl, rfl, rfl⟩

/-- C8 counterexample: in a concrete fresh run, the record the
orchestrator accumulates for persisting has no `crawled_at`, even though
`parse_article` had set one — `main.main`'s `filtered_article` keeps only
url, title, content and publish_date. -/
theorem C8_counterexample :
    ((main_step runState0 "https://vnexpress.net/a" (some twoParasMarkup) ts0 0).new_articles).map
      (·.crawled_at) = [none] ∧
    (parse_article twoParasMarkup "https://vnexpress.net/a" ts0 0).map (·.crawled_at) =
      some (some ts0) := by
  decide

/-- C8 (amended): `parse_article` stamps every freshly parsed article
with `crawled_at = now`, but the orchestrator strips the field before
accumulating: every record `main`'s loop adds to the set to be persisted
carries no `crawled_at`. -/
theorem C8_parse_stamps_main_strips :
    (∀ m url now tz a, parse_article m url now tz = some a → a.crawled_at = some now) ∧
    (∀ rs url page now tz a, a ∈ (main_step rs url page now tz).new_articles →
      a ∈ rs.new_articles ∨ a.crawled_at = none) := by
  constructor
  · intro m url now tz a hp
    exact (parse_article_some_shape m url now tz a hp).2.2.2.2.2.2
  · intro rs url page now tz a ha
    unfold main_step at ha
    by_cases h1 : is_crawled rs.crawler url = true
    · rw [if_pos h1] at ha
      exact Or.inl ha
    · rw [if_neg h1] at ha
      cases hc : crawl_article rs.crawler url page now tz with
      | mk st' res =>
        rw [hc] at ha
        cases res with
        | none => exact Or.inl ha
        | some a' =>
          dsimp only at ha
          by_cases h2 : a'.content ≠ "" ∧ a'.publish_date ≠ 0
          · rw [if_pos h2] at ha
            by_cases h3 : is_within_days now a'.publish_date 7 = true
            · rw [if_pos h3] at ha
              dsimp only at ha
              rw [List.mem_append] at ha
              rcases ha with ha | ha
              · exact Or.inl ha
              · rw [List.mem_singleton] at ha
                subst ha
                exact Or.inr rfl
            · rw [if_neg h3] at ha
              exact Or.inl ha
          · rw [if_neg h2] at ha
            exact Or.inl ha

/-- Witness for C8: the concrete parsed fixture carries its stamp, and
the concrete accumulated record (which is not among the previously
accumulated ones) has `crawled_at = none`. -/
theorem C8_witness :
    descrParsed.crawled_at = some 5 ∧
    (freshStored ∈ runState0.new_articles ∨ freshStored.crawled_at = none) :=
  ⟨C8_parse_stamps_main_strips.1 descrMarkup "u" 5 0 descrParsed (by decide),
   C8_parse_stamps_main_strips.2 runState0 "https://vnexpress.net/a" (some twoParasMarkup)
     ts0 0 freshStored (by decide)⟩

/-- C10: when an article parses successfully but is discarded as stale by
the 7-day recency filter, its URL was already added to `crawled_urls` by
`crawl_article`, so after the step the URL is marked seen, nothing was
accumulated for it (nor recorded as failed), and any later step of the
run on the same URL is a no-op. -/
theorem C10_stale_url_stays_seen (rs : RunState) (url : String) (m : ArticleMarkup)
    (now tz : Int) (a : Article) (page2 : Option ArticleMarkup) (now2 tz2 : Int)
    (hseen : is_crawled rs.crawler url = false)
    (hp : parse_article m url now tz = some a)
    (hstale : is_within_days now a.publish_date 7 = false) :
    is_crawled (main_step rs url (some m) now tz).crawler url = true ∧
    (main_step rs url (some m) now tz).new_articles = rs.new_articles ∧
    (main_step rs url (some m) now tz).failed_urls = rs.failed_urls ∧
    main_step (main_step rs url (some m) now tz) url page2 now2 tz2 =
      main_step rs url (some m) now tz := by
  have h2 : a.content ≠ "" ∧ a.publish_date ≠ 0 := by
    have hs := parse_article_some_shape m url now tz a hp
    exact ⟨hs.2.2.2.1, hs.2.2.2.2.1⟩
  have hcr : crawl_article rs.crawler url (some m) now tz =
      ({ rs.crawler with crawled_urls := url :: rs.crawler.crawled_urls }, some a) := by
    unfold crawl_article
    rw [if_neg (by simp [hseen])]
    dsimp only
    rw [hp]
  have hms : main_step rs url (some m) now tz =
      { rs with crawler := { rs.crawler with crawled_urls := url :: rs.crawler.crawled_urls } } := by
    unfold main_step
    rw [if_neg (by simp [hseen]), hcr]
    dsimp only
    rw [if_pos h2, if_neg (by simp [hstale])]
  have hseen2 :
      is_crawled ({ rs with crawler :=
        { rs.crawler with crawled_urls := url :: rs.crawler.crawled_urls } } : RunState).crawler
        url = true :=
    List.elem_eq_true_of_mem (List.mem_cons_self _ _)
  refine ⟨?_, ?_, ?_, ?_⟩
  · rw [hms]
    exact hseen2
  · rw [hms]
  · rw [hms]
  · rw [hms]
    unfold main_step
    rw [if_pos hseen2]

/-- Witness for C10: a concrete fresh run processing a 10-day-old article
at `now = ts0 + 864000`. -/
theorem C10_witness :
    is_crawled (main_step runState0 "https://vnexpress.net/a" (some twoParasMarkup)
      (ts0 + 864000) 0).crawler "https://vnexpress.net/a" = true ∧
    (main_step runState0 "https://vnexpress.net/a" (some twoParasMarkup)
      (ts0 + 864000) 0).new_articles = runState0.new_articles ∧
    (main_step runState0 "https://vnexpress.net/a" (some twoParasMarkup)
      (ts0 + 864000) 0).failed_urls = runState0.failed_urls ∧
    main_step (main_step runState0 "https://vnexpress.net/a" (some twoParasMarkup)
      (ts0 + 864000) 0) "https://vnexpress.net/a" none 0 0 =
      main_step runState0 "https://vnexpress.net/a" (some twoParasMarkup) (ts0 + 864000) 0 :=
  C10_stale_url_stays_seen runState0 "https://vnexpress.net/a" twoParasMarkup
    (ts0 + 864000) 0 staleParsed none 0 0 (by decide) (by decide) (by decide)

end Crawl
